import Mathlib

/-!
Shallow embedding of the match-lifecycle engine of the chess-app backend:
the data model (models.py), the hospice closure state machine (Game.hospice),
the move endpoint (chess_bp.make_move), the entry protocol (chess_bp.enter_game,
chess_bp.create_game, chess_bp.get_player_team) and the session/user merge
logic (user.do_login, user.do_logout).

Timestamps and durations are modelled as integers (seconds); the external
chess-rules library (python-chess) is modelled by carrying its observable
answers (terminal outcome of the final position, side to move, per-node clock
annotations) as data on the decoded game record, supplied as oracle
parameters where the code consults the library on a freshly advanced position.
A stored move-record string is modelled by its decoded content; a record that
fails to decode is modelled as a missing decoded content (none).
-/

namespace ChessApp

/-- models.User: registered identity with an integer rating (score). -/
structure User where
  user_id : Nat
  username : String
  password : String
  score : Int
deriving DecidableEq

/-- models.Session: anonymous or user-linked connection identity. -/
structure Session where
  session_id : Nat
  token : String
  user_id : Option Nat
deriving DecidableEq

/-- models.Player: a seat in a match, keyed by (game_id, is_white). -/
structure Player where
  game_id : Nat
  is_white : Bool
  user_id : Option Nat
  session_id : Option Nat
deriving DecidableEq

/-- models.GameTimer rows used by the code: Countup and Countdown. -/
inductive TimerKind
  | countup
  | countdown
deriving DecidableEq

/-- Terminal outcome reported by the rules engine for a position. -/
inductive Outcome
  | whiteWins
  | blackWins
  | draw
deriving DecidableEq

/-- chess.Outcome.result(): the PGN result string of an outcome. -/
def Outcome.result : Outcome → String
  | .whiteWins => "1-0"
  | .blackWins => "0-1"
  | .draw => "1/2-1/2"

/-- chess.Outcome.winner: the winning colour, none for a draw. -/
def Outcome.winner : Outcome → Option Bool
  | .whiteWins => some true
  | .blackWins => some false
  | .draw => none

/-- One mainline node of the decoded record: the move text and the clock
annotation written by make_move (node.clock(), none when absent). -/
structure Ply where
  san : String
  clock : Option Int
deriving DecidableEq

/-- The PGN header block as initialised by enter_game and mutated by hospice.
Date and time-of-day are modelled by the raw timestamp they are formatted
from. -/
structure PgnHeaders where
  event : String
  site : String
  date : Int
  round : Nat
  white : String
  black : String
  result : String
  time : Int
  termination : String
  mode : String
deriving DecidableEq

/-- The decoded move record (chess.pgn.Game): headers, mainline plies, and
the rules-engine observables of the record: the terminal outcome of the final
position (game.end().board().outcome()), the side to move at the final
position (game.end().board().turn), and the side to move at the root node
(game.turn(); always white for records starting from the standard position,
which is every record this app writes). -/
structure ChessGame where
  headers : PgnHeaders
  plies : List Ply
  outcome : Option Outcome
  rootTurnWhite : Bool
  turnWhite : Bool
deriving DecidableEq

/-- models.Game: one chess contest. The stored move-record string is modelled
by its decoded content; none models a record that fails to decode (or that
was never written). -/
structure Game where
  game_id : Nat
  game : Option ChessGame
  time_started : Option Int
  time_ended : Option Int
  white_won : Option Bool
  timer : TimerKind
  timeLimit : Option Int
  players : List Player
deriving DecidableEq

/-- Server-fault conditions: a Python exception (TypeError/NameError) or an
explicit 500 inside the transactional scope; the transaction rolls back, so
no partial writes survive. -/
inductive Fault
  | decodeFailure
  | missingTimeLimit
  | missingClock
  | missingSeat
deriving DecidableEq

/-- The thinking-time accumulation loop shared by hospice and make_move:
for time in times: if is_white: white += last_time - time else black += ...;
last_time = time; is_white = not is_white. -/
def accumTimes : List Int → Int → Bool → Int → Int → Int × Int
  | [], _, _, w, b => (w, b)
  | t :: ts, last, isWhite, w, b =>
    if isWhite then accumTimes ts t false (w + (last - t)) b
    else accumTimes ts t true w (b + (last - t))

/-- times = [node.clock() - timeLimit for node in game.mainline()]; a missing
clock annotation is a fault (TypeError in hospice, explicit 500 in
make_move). -/
def clockOffsets (cg : ChessGame) (limit : Int) : Option (List Int) :=
  cg.plies.mapM (fun p => p.clock.map (fun c => c - limit))

/-- The reconciled remaining budgets of the two sides. -/
structure Reconciled where
  white : Int
  black : Int
deriving DecidableEq

/-- The clock-reconciliation arithmetic shared by hospice and make_move:
per-side thinking totals from the stored offsets, remaining budgets
limit - total, and the in-flight gap charged to the side given by
game.turn() - the root node's turn. -/
def reconcile (cg : ChessGame) (limit : Int) (secondsSinceStart : Int) :
    Option Reconciled :=
  match clockOffsets cg limit with
  | none => none
  | some offs =>
    let wb := accumTimes offs limit true 0 0
    let timeMoving := wb.1 + wb.2
    let w0 := limit - wb.1
    let b0 := limit - wb.2
    some
      { white := if cg.rootTurnWhite then w0 - (secondsSinceStart - timeMoving) else w0
        black := if cg.rootTurnWhite then b0 else b0 - (secondsSinceStart - timeMoving) }

/-- for player in self.players: if player.is_white: white = player else
black = player - the last assignment of each colour wins. -/
def findSeatLoop (players : List Player) : Option Player × Option Player :=
  players.foldl
    (fun wb p => if p.is_white then (some p, wb.2) else (wb.1, some p))
    (none, none)

/-- Apply a score delta to the user bound to a seat, if any; a seat bound
only to a Session has no user and receives no rating change. -/
def bumpScore (users : List User) (uid : Option Nat) (d : Int) : List User :=
  match uid with
  | none => users
  | some i =>
    users.map (fun u => if u.user_id = i then { u with score := u.score + d } else u)

/-- The rank-change block of hospice: locate the white and black seats,
pick winner = white if self.white_won else black (Python truthiness: a None
or False flag selects black), and apply +1 / -1 to the bound users. A missing
seat is a NameError, a server fault. -/
def applyRatings (players : List Player) (whiteWon : Option Bool)
    (users : List User) : Except Fault (List User) :=
  match findSeatLoop players with
  | (some w, some b) =>
    let winner := if whiteWon = some true then w else b
    let loser := if whiteWon = some true then b else w
    .ok (bumpScore (bumpScore users winner.user_id 1) loser.user_id (-1))
  | _ => .error .missingSeat

/-- The common tail of hospice: the idempotence guard
if self.white_won != old_white_won, the rating application, and the
conditional re-encode of the record
(if (game != chessgame) or force_save). -/
def hospiceTail (old : Option Bool) (players : List Player) (users : List User)
    (saveBack : Bool) (cg2 : ChessGame) (g2 : Game) :
    Except Fault (Game × List User) :=
  if g2.white_won ≠ old then
    match applyRatings players g2.white_won users with
    | .error f => .error f
    | .ok us2 => .ok ((if saveBack then { g2 with game := some cg2 } else g2), us2)
  else
    .ok ((if saveBack then { g2 with game := some cg2 } else g2), users)

/-- The outcome-detection part of Game.hospice: a terminal position reported
by the rules engine concludes the game normally; otherwise, for Countdown
matches, a reconciled remaining budget at or below zero concludes it by time
forfeit, the white branch checked first. Returns the (possibly rewritten)
record and match row. -/
def hospiceStep (g : Game) (cg : ChessGame) (now started : Int) :
    Except Fault (ChessGame × Game) :=
  match cg.outcome with
  | some oc =>
    .ok
      ({ cg with headers :=
           { cg.headers with result := oc.result, termination := "normal" } },
       { g with time_ended := some now, white_won := oc.winner })
  | none =>
    if g.timer = TimerKind.countdown then
      match g.timeLimit with
      | none => .error .missingTimeLimit
      | some limit =>
        match reconcile cg limit (now - started) with
        | none => .error .missingClock
        | some r =>
          if r.white ≤ 0 then
            .ok
              ({ cg with headers :=
                   { cg.headers with result := "0-1", termination := "time forefit" } },
               { g with time_ended := some now, white_won := some false })
          else if r.black ≤ 0 then
            .ok
              ({ cg with headers :=
                   { cg.headers with result := "1-0", termination := "time forefit" } },
               { g with time_ended := some now, white_won := some true })
          else .ok (cg, g)
    else .ok (cg, g)

/-- Game.hospice (models.py): if the game should end, make it end. Decodes
the record unless one is passed in, detects a terminal position or a time
forfeiture, stamps time_ended and the winner flag, and applies the rating
delta exactly when the winner flag changed in this invocation. -/
def hospice (g : Game) (users : List User) (chessgameArg : Option ChessGame)
    (forceSave : Bool) (now : Int) : Except Fault (Game × List User) :=
  match g.time_started with
  | none => .ok (g, users)
  | some started =>
    match (match chessgameArg with | some cg => some cg | none => g.game) with
    | none => .error .decodeFailure
    | some cg =>
      match hospiceStep g cg now started with
      | .error f => .error f
      | .ok p =>
        hospiceTail g.white_won g.players users (chessgameArg.isNone || forceSave)
          p.1 p.2

/-- chess_bp.get_player_team: first seat matched by Session-equality or
User-equality (ORM object equality is row identity), returning its colour. -/
def identityMatches (p : Player) (session : Option Session) (user : Option User) : Bool :=
  (match session with
   | some s => p.session_id == some s.session_id
   | none => false) ||
  (match user with
   | some u => p.user_id == some u.user_id
   | none => false)

/-- Checks if a user is already in a game (chess_bp.get_player_team). -/
def get_player_team (players : List Player) (session : Option Session)
    (user : Option User) : Option Bool :=
  players.findSome?
    (fun p => if identityMatches p session user then some p.is_white else none)

/-- chessgame.end().add_line([move]); chessgame.end().set_clock(c): append a
ply carrying the clock annotation; the side to move flips and the terminal
outcome of the new final position is the rules-engine oracle's answer. -/
def appendPly (cg : ChessGame) (san : String) (clock : Int)
    (newOutcome : Option Outcome) : ChessGame :=
  { cg with
    plies := cg.plies ++ [{ san := san, clock := some clock }]
    turnWhite := !cg.turnWhite
    outcome := newOutcome }

/-- Responses of the move endpoint (chess_bp.make_move). -/
inductive MoveResult
  | notFound
  | notStarted
  | gameOver
  | notPlaying
  | notYourTurn
  | invalidMove
  | faultDecode
  | faultMissingTimeLimit
  | faultMissingClock
  | faultHospice (f : Fault)
  | whiteFlag
  | blackFlag
  | moved
deriving DecidableEq

/-- chess_bp.make_move: the move-submission endpoint. parseOk is the rules
engine's verdict on parse_san; newOutcome is its terminal-outcome answer for
the position after the move. Returns the response together with the match
and user state after the transaction (unchanged on every rejected or faulted
path, since faults roll the transaction back and rejections precede every
mutation). -/
def make_move (gameArg : Option Game) (users : List User)
    (session : Option Session) (user : Option User) (san : String)
    (parseOk : Bool) (newOutcome : Option Outcome) (now : Int) :
    MoveResult × Option Game × List User :=
  match gameArg with
  | none => (.notFound, none, users)
  | some g =>
    match g.time_started with
    | none => (.notStarted, some g, users)
    | some started =>
      match g.time_ended with
      | some _ => (.gameOver, some g, users)
      | none =>
        match get_player_team g.players session user with
        | none => (.notPlaying, some g, users)
        | some playerIsWhite =>
          match g.game with
          | none => (.faultDecode, some g, users)
          | some cg =>
            if playerIsWhite ≠ cg.turnWhite then (.notYourTurn, some g, users)
            else if ¬ parseOk then (.invalidMove, some g, users)
            else
              let secondsSinceStart := now - started
              if g.timer = TimerKind.countdown then
                match g.timeLimit with
                | none => (.faultMissingTimeLimit, some g, users)
                | some limit =>
                  match reconcile cg limit secondsSinceStart with
                  | none => (.faultMissingClock, some g, users)
                  | some r =>
                    if r.white ≤ 0 then
                      match hospice g users none false now with
                      | .error f => (.faultHospice f, some g, users)
                      | .ok gu => (.whiteFlag, some gu.1, gu.2)
                    else if r.black ≤ 0 then
                      match hospice g users none false now with
                      | .error f => (.faultHospice f, some g, users)
                      | .ok gu => (.blackFlag, some gu.1, gu.2)
                    else
                      match hospice g users
                          (some (appendPly cg san (limit * 2 - secondsSinceStart) newOutcome))
                          true now with
                      | .error f => (.faultHospice f, some g, users)
                      | .ok gu => (.moved, some gu.1, gu.2)
              else
                match hospice g users
                    (some (appendPly cg san secondsSinceStart newOutcome))
                    true now with
                | .error f => (.faultHospice f, some g, users)
                | .ok gu => (.moved, some gu.1, gu.2)

/-- white.user.username if white.user else "Anonymous". -/
def displayName (users : List User) (p : Player) : String :=
  match p.user_id with
  | none => "Anonymous"
  | some uid =>
    match users.find? (fun u => u.user_id == uid) with
    | some u => u.username
    | none => "Anonymous"

/-- Responses of the entry endpoint (chess_bp.enter_game). -/
inductive EnterResult
  | notFound
  | alreadyJoined
  | full
  | colorUnavailable
  | missingSeatFault
  | entered
deriving DecidableEq

/-- The seat row enter_game persists: player.user = user and player.session
= session if session.user is None else None. -/
def joinSeat (g : Game) (color : Bool) (session : Session)
    (user : Option User) : Player :=
  { game_id := g.game_id
    is_white := color
    user_id := user.map User.user_id
    session_id :=
      if session.user_id.isNone then some session.session_id else none }

/-- chess_bp.enter_game: join an open match. randomBit models
random.getrandbits(1), used when the caller expressed no colour preference.
On the 1-to-2 seat transition the match is started: time_started stamped and
the PGN header block written. -/
def enter_game (gameArg : Option Game) (paramsWantsWhite : Option Bool)
    (randomBit : Bool) (session : Session) (user : Option User)
    (users : List User) (now : Int) : EnterResult × Option Game :=
  let wantsWhite0 := paramsWantsWhite.getD randomBit
  match gameArg with
  | none => (.notFound, none)
  | some g =>
    if (get_player_team g.players (some session) user).isSome then
      (.alreadyJoined, some g)
    else if g.players.length ≥ 2 then (.full, some g)
    else
      let seatTaken := g.players.any (fun p => p.is_white == wantsWhite0)
      let color? : Option Bool :=
        if seatTaken then
          if paramsWantsWhite.isNone then some (!wantsWhite0) else none
        else some wantsWhite0
      match color? with
      | none => (.colorUnavailable, some g)
      | some color =>
        let p : Player := joinSeat g color session user
        let players2 := g.players ++ [p]
        if players2.length = 2 then
          match findSeatLoop players2 with
          | (some w, some b) =>
            (.entered,
             some { g with
                      players := players2
                      time_started := some now
                      game := some
                        { headers :=
                            { event := "Checkmate Chess Game"
                              site := "chessapp.ultras-playroom.xyz"
                              date := now
                              round := 1
                              white := displayName users w
                              black := displayName users b
                              result := "*"
                              time := now
                              termination := "unterminated"
                              mode := "ICS" }
                          plies := []
                          outcome := none
                          rootTurnWhite := true
                          turnWhite := true } })
          | _ => (.missingSeatFault, some g)
        else
          (.entered, some { g with players := players2 })

/-- chess_bp.create_game: persist a fresh match with its creator's seat;
the seat is bound to the user when logged in, else to the session. -/
def create_game (creatorStartsWhite : Bool) (timeLimit : Option Int)
    (timer : TimerKind) (user : Option User) (session : Session)
    (gid : Nat) : Game :=
  { game_id := gid
    game := none
    time_started := none
    time_ended := none
    white_won := none
    timer := timer
    timeLimit := timeLimit
    players :=
      [{ game_id := gid
         is_white := creatorStartsWhite
         user_id := user.map User.user_id
         session_id := if user.isNone then some session.session_id else none }] }

/-- Responses of user.do_login. -/
inductive LoginResult
  | alreadyLoggedIn
  | invalidCredentials
  | success
deriving DecidableEq

/-- user.do_login: resolve the username, check the credential, and on success
absorb the caller's pre-login Session into the resolved User's session
collection (user.sessions.append(session), i.e. the session's user link is
set); Player seats are not touched. -/
def do_login (users : List User) (sessions : List Session)
    (players : List Player) (username password : String) (session : Session) :
    LoginResult × List Session × List Player :=
  if session.user_id.isSome then (.alreadyLoggedIn, sessions, players)
  else
    match users.find? (fun u => u.username == username) with
    | none => (.invalidCredentials, sessions, players)
    | some u =>
      if u.password ≠ password then (.invalidCredentials, sessions, players)
      else
        (.success,
         sessions.map
           (fun s =>
             if s.session_id == session.session_id then
               { s with user_id := some u.user_id }
             else s),
         players)

/-- Responses of user.do_logout. -/
inductive LogoutAction
  | deleted
  | demoted
deriving DecidableEq

/-- user.do_logout: a Session holding zero Player seats is deleted outright;
otherwise only its User link is nulled; Player rows are untouched either
way. -/
def do_logout (sessions : List Session) (players : List Player)
    (session : Session) : LogoutAction × List Session × List Player :=
  if (players.filter (fun p => p.session_id == some session.session_id)).length = 0 then
    (.deleted,
     sessions.filter (fun s => ¬ (s.session_id == session.session_id)),
     players)
  else
    (.demoted,
     sessions.map
       (fun s =>
         if s.session_id == session.session_id then { s with user_id := none }
         else s),
     players)

/-- The clock annotation as the spec words it in section 4.2: cumulative
remaining time for the side that just moved, minus the configured time limit.
Modelled from the spec for comparison against the annotation make_move
writes. -/
def specMoverOffset (remainingOfMover : Int) (limit : Int) : Int :=
  remainingOfMover - limit

/-- Consecutive differences of the stored offsets, seeded with the time
limit: the per-ply thinking durations of the reconciliation arithmetic. -/
def offsetGaps (last : Int) : List Int → List Int
  | [] => []
  | t :: ts => (last - t) :: offsetGaps t ts

/-- Alternating attribution of per-ply durations, starting with the given
colour. -/
def altSums : Bool → List Int → Int × Int
  | _, [] => (0, 0)
  | isWhite, x :: xs =>
    let wb := altSums (!isWhite) xs
    if isWhite then (x + wb.1, wb.2) else (wb.1, x + wb.2)

/-! ## Theorems -/

/-- C3: for every match whose time_ended is non-null (and which has started,
an invariant of every match that ever received an end stamp), a move
submission is rejected with the GameOver outcome and the stored match state
and user state are returned unchanged. -/
theorem make_move_rejects_ended (g : Game) (users : List User)
    (session : Option Session) (user : Option User) (san : String)
    (parseOk : Bool) (newOutcome : Option Outcome) (now st te : Int)
    (hst : g.time_started = some st) (hte : g.time_ended = some te) :
    make_move (some g) users session user san parseOk newOutcome now =
      (.gameOver, some g, users) := by
  simp only [make_move]
  rw [hst, hte]

/-- Witness for C3 at a concrete concluded match. -/
theorem make_move_rejects_ended_witness :
    make_move
      (some { game_id := 1, game := none, time_started := some 0,
              time_ended := some 5, white_won := some true,
              timer := TimerKind.countup, timeLimit := none, players := [] })
      [] none none "e4" true none 9 =
      (.gameOver,
       some { game_id := 1, game := none, time_started := some 0,
              time_ended := some 5, white_won := some true,
              timer := TimerKind.countup, timeLimit := none, players := [] },
       []) :=
  make_move_rejects_ended _ _ _ _ _ _ _ _ 0 5 rfl rfl

/-- C9: logout deletes the Session outright when it holds zero Player seats,
and otherwise only nulls its User link; the Player rows are untouched in
both branches. -/
theorem do_logout_deletes_or_demotes (sessions : List Session)
    (players : List Player) (session : Session) :
    ((players.filter (fun p => p.session_id == some session.session_id)) = [] →
      do_logout sessions players session =
        (.deleted,
         sessions.filter (fun s => ¬ (s.session_id == session.session_id)),
         players)) ∧
    ((players.filter (fun p => p.session_id == some session.session_id)) ≠ [] →
      do_logout sessions players session =
        (.demoted,
         sessions.map
           (fun s =>
             if s.session_id == session.session_id then { s with user_id := none }
             else s),
         players)) := by
  constructor
  · intro h
    unfold do_logout
    rw [if_pos (by simp [h])]
  · intro h
    unfold do_logout
    rw [if_neg (by simpa [List.length_eq_zero] using h)]

/-- Witness for C9: a seatless session is deleted; a seated one is demoted
with its seat preserved. -/
theorem do_logout_deletes_or_demotes_witness :
    do_logout [{ session_id := 1, token := "a", user_id := some 4 }] []
        { session_id := 1, token := "a", user_id := some 4 } =
      (.deleted,
       [{ session_id := 1, token := "a", user_id := some 4 }].filter
         (fun s => ¬ (s.session_id == 1)),
       []) ∧
    do_logout [{ session_id := 1, token := "a", user_id := some 4 }]
        [{ game_id := 9, is_white := true, user_id := none, session_id := some 1 }]
        { session_id := 1, token := "a", user_id := some 4 } =
      (.demoted,
       [{ session_id := 1, token := "a", user_id := some 4 }].map
         (fun s =>
           if s.session_id == 1 then { s with user_id := none } else s),
       [{ game_id := 9, is_white := true, user_id := none, session_id := some 1 }]) :=
  ⟨(do_logout_deletes_or_demotes _ _ _).1 (by decide),
   (do_logout_deletes_or_demotes _ _ _).2 (by decide)⟩

/-- C8: a successful login by a caller holding an anonymous Session makes the
resolved User absorb it (the session's user link is set to the resolved
user), while the Player rows are returned untouched, so seat lookup by
Session-equality answers exactly as before the login. -/
theorem do_login_absorbs_session (users : List User) (sessions : List Session)
    (players : List Player) (username password : String) (session : Session)
    (u : User)
    (hanon : session.user_id = none)
    (hfind : users.find? (fun x => x.username == username) = some u)
    (hpw : u.password = password) :
    do_login users sessions players username password session =
      (.success,
       sessions.map
         (fun s =>
           if s.session_id == session.session_id then
             { s with user_id := some u.user_id }
           else s),
       players) ∧
    (∀ uu, get_player_team players
        (some { session with user_id := some u.user_id }) uu =
        get_player_team players (some session) uu) := by
  refine ⟨?_, fun uu => rfl⟩
  unfold do_login
  rw [hanon]
  simp [hfind, hpw]

/-- Witness for C8 at a concrete anonymous session and registered user. -/
theorem do_login_absorbs_session_witness :
    do_login [{ user_id := 7, username := "ada", password := "pw", score := 400 }]
        [{ session_id := 3, token := "tok", user_id := none }]
        [{ game_id := 2, is_white := true, user_id := none, session_id := some 3 }]
        "ada" "pw" { session_id := 3, token := "tok", user_id := none } =
      (.success,
       [{ session_id := 3, token := "tok", user_id := none }].map
         (fun s =>
           if s.session_id == 3 then { s with user_id := some 7 } else s),
       [{ game_id := 2, is_white := true, user_id := none, session_id := some 3 }]) ∧
    (∀ uu, get_player_team
        [{ game_id := 2, is_white := true, user_id := none, session_id := some 3 }]
        (some { session_id := 3, token := "tok", user_id := some 7 }) uu =
        get_player_team
        [{ game_id := 2, is_white := true, user_id := none, session_id := some 3 }]
        (some { session_id := 3, token := "tok", user_id := none }) uu) :=
  do_login_absorbs_session _ _ _ _ _
    { session_id := 3, token := "tok", user_id := none }
    { user_id := 7, username := "ada", password := "pw", score := 400 }
    rfl (by decide) rfl

/-- Inversion of the common hospice tail: the saved match keeps the winner
flag of the stepped match row, an unchanged flag leaves the users untouched,
and a changed flag applies exactly the +1 / -1 seat-bound deltas. -/
theorem hospiceTail_ok_inv (old : Option Bool) (ps : List Player)
    (us : List User) (sb : Bool) (cg2 : ChessGame) (gg : Game)
    (g2 : Game) (us2 : List User)
    (h : hospiceTail old ps us sb cg2 gg = Except.ok (g2, us2)) :
    g2.white_won = gg.white_won ∧
    (gg.white_won = old → us2 = us) ∧
    (gg.white_won ≠ old →
      ∃ pw pb, findSeatLoop ps = (some pw, some pb) ∧
        us2 = bumpScore
          (bumpScore us
            (if gg.white_won = some true then pw else pb).user_id 1)
          (if gg.white_won = some true then pb else pw).user_id (-1)) := by
  unfold hospiceTail at h
  by_cases hww : gg.white_won = old
  · rw [if_neg (fun hne => hne hww)] at h
    injection h with h1
    injection h1 with hga hus
    subst hus
    subst hga
    refine ⟨?_, fun _ => rfl, fun hne => absurd hww hne⟩
    cases sb <;> rfl
  · rw [if_pos hww] at h
    unfold applyRatings at h
    rcases hfs : findSeatLoop ps with ⟨w?, b?⟩
    rw [hfs] at h
    rcases w? with _ | pw
    · exact absurd h (by simp)
    rcases b? with _ | pb
    · exact absurd h (by simp)
    injection h with h1
    injection h1 with hga hus
    subst hus
    subst hga
    refine ⟨?_, fun heq => absurd heq hww, fun _ => ⟨pw, pb, rfl, rfl⟩⟩
    cases sb <;> rfl

/-- C2: the rating delta is applied exactly when the winner flag changed in
this hospice invocation: the user bound to the winning seat (if any) gets +1
and the user bound to the losing seat (if any) gets -1, a seat bound only to
a Session (no user binding) receives no rating change, and an unchanged flag
changes no score at all. -/
theorem hospice_rating_delta (g : Game) (users : List User)
    (cgArg : Option ChessGame) (forceSave : Bool) (now : Int)
    (g2 : Game) (us2 : List User)
    (h : hospice g users cgArg forceSave now = Except.ok (g2, us2)) :
    (g2.white_won = g.white_won → us2 = users) ∧
    (g2.white_won ≠ g.white_won →
      ∃ pw pb, findSeatLoop g.players = (some pw, some pb) ∧
        us2 = bumpScore
          (bumpScore users
            (if g2.white_won = some true then pw else pb).user_id 1)
          (if g2.white_won = some true then pb else pw).user_id (-1)) ∧
    (∀ (usx : List User) (d : Int), bumpScore usx none d = usx) := by
  unfold hospice at h
  split at h
  · injection h with h1
    injection h1 with hga hus
    subst hga hus
    exact ⟨fun _ => rfl, fun hne => absurd rfl hne, fun _ _ => rfl⟩
  · split at h
    · exact absurd h (by simp)
    · split at h
      · exact absurd h (by simp)
      · rcases hospiceTail_ok_inv _ _ _ _ _ _ _ _ h with ⟨hflag, hsame, hdiff⟩
        rw [← hflag] at hsame hdiff
        exact ⟨hsame, hdiff, fun _ _ => rfl⟩

/-- Concrete fixture for the C2 witness: a started countup match whose final
position is checkmate for white, with both seats bound to registered
users. -/
def gMate : Game :=
  { game_id := 1
    game := some
      { headers :=
          { event := "e", site := "s", date := 0, round := 1, white := "w",
            black := "b", result := "*", time := 0,
            termination := "unterminated", mode := "ICS" }
        plies := []
        outcome := some Outcome.whiteWins
        rootTurnWhite := true
        turnWhite := true }
    time_started := some 0
    time_ended := none
    white_won := none
    timer := TimerKind.countup
    timeLimit := none
    players :=
      [{ game_id := 1, is_white := true, user_id := some 1, session_id := none },
       { game_id := 1, is_white := false, user_id := some 2, session_id := none }] }

/-- The two registered users of the C2 witness fixture. -/
def usersMate : List User :=
  [{ user_id := 1, username := "w", password := "p", score := 400 },
   { user_id := 2, username := "b", password := "p", score := 400 }]

/-- The match row after hospice concludes the C2 witness fixture. -/
def gMate2 : Game :=
  { gMate with
    time_ended := some 9
    white_won := some true
    game := some
      { headers :=
          { event := "e", site := "s", date := 0, round := 1, white := "w",
            black := "b", result := "1-0", time := 0,
            termination := "normal", mode := "ICS" }
        plies := []
        outcome := some Outcome.whiteWins
        rootTurnWhite := true
        turnWhite := true } }

/-- The user rows after hospice concludes the C2 witness fixture. -/
def usersMate2 : List User :=
  [{ user_id := 1, username := "w", password := "p", score := 401 },
   { user_id := 2, username := "b", password := "p", score := 399 }]

/-- Witness for C2: a checkmate concluded on a fresh invocation changes the
flag and moves the two bound users' scores by +1 and -1. -/
theorem hospice_rating_delta_witness :
    ∃ pw pb, findSeatLoop gMate.players = (some pw, some pb) ∧
      usersMate2 = bumpScore
        (bumpScore usersMate
          (if gMate2.white_won = some true then pw else pb).user_id 1)
        (if gMate2.white_won = some true then pb else pw).user_id (-1) :=
  (hospice_rating_delta gMate usersMate none false 9 gMate2 usersMate2
    (by rfl)).2.1 (by decide)

/-- C10: when hospice reconciles a Countdown match and both sides' remaining
budgets are at or below zero, the white forfeiture branch is evaluated first,
so the match concludes as a black win: winner flag false and result 0-1. -/
theorem hospice_double_flag_black_wins (g : Game) (users : List User)
    (now st limit : Int) (cg : ChessGame) (r : Reconciled) (pw pb : Player)
    (hst : g.time_started = some st) (hcg : g.game = some cg)
    (hout : cg.outcome = none) (htimer : g.timer = TimerKind.countdown)
    (hlim : g.timeLimit = some limit)
    (hrec : reconcile cg limit (now - st) = some r)
    (hw : r.white ≤ 0) (hb : r.black ≤ 0)
    (hseats : findSeatLoop g.players = (some pw, some pb)) :
    ∃ g2 us2, hospice g users none false now = Except.ok (g2, us2) ∧
      g2.white_won = some false ∧
      ∃ cg2, g2.game = some cg2 ∧ cg2.headers.result = "0-1" ∧
        cg2.headers.termination = "time forefit" := by
  have hstep : hospiceStep g cg now st = Except.ok
      ({ cg with headers :=
           { cg.headers with result := "0-1", termination := "time forefit" } },
       { g with time_ended := some now, white_won := some false }) := by
    simp [hospiceStep, hout, htimer, hlim, hrec, hw]
  unfold hospice
  rw [hst]
  simp only [hcg, hstep]
  unfold hospiceTail
  by_cases hold : g.white_won = some false
  · rw [if_neg (by simp [hold])]
    exact ⟨_, _, rfl, rfl, _, rfl, rfl, rfl⟩
  · rw [if_pos (by simp; exact fun hx => hold hx.symm)]
    unfold applyRatings
    rw [hseats]
    exact ⟨_, _, rfl, rfl, _, rfl, rfl, rfl⟩

/-- Fixture for the C10 witness: a Countdown record whose stored annotations
put both sides past their budget at reconciliation time. -/
def cgBoth : ChessGame :=
  { headers :=
      { event := "e", site := "s", date := 0, round := 1, white := "w",
        black := "b", result := "*", time := 0,
        termination := "unterminated", mode := "ICS" }
    plies := [{ san := "e4", clock := some (-5) }, { san := "e5", clock := some (-30) }]
    outcome := none
    rootTurnWhite := true
    turnWhite := true }

/-- Fixture for the C10 witness: the Countdown match holding cgBoth. -/
def gBoth : Game :=
  { game_id := 2
    game := some cgBoth
    time_started := some 0
    time_ended := none
    white_won := none
    timer := TimerKind.countdown
    timeLimit := some 10
    players :=
      [{ game_id := 2, is_white := true, user_id := some 1, session_id := none },
       { game_id := 2, is_white := false, user_id := some 2, session_id := none }] }

/-- Witness for C10: on the gBoth fixture both reconciled budgets are -15,
and hospice concludes a black win with result 0-1. -/
theorem hospice_double_flag_black_wins_witness :
    ∃ g2 us2, hospice gBoth [] none false 50 = Except.ok (g2, us2) ∧
      g2.white_won = some false ∧
      ∃ cg2, g2.game = some cg2 ∧ cg2.headers.result = "0-1" ∧
        cg2.headers.termination = "time forefit" :=
  hospice_double_flag_black_wins gBoth [] 50 0 10 cgBoth
    { white := -15, black := -15 }
    { game_id := 2, is_white := true, user_id := some 1, session_id := none }
    { game_id := 2, is_white := false, user_id := some 2, session_id := none }
    rfl rfl rfl rfl rfl (by decide) (by decide) (by decide) (by decide)

/-- Failing input for C1: the record of a Countdown match (timeLimit 100)
that hospice itself concluded at time 199 as a white win, black having
exceeded its budget in the stored annotations (white thinking 1+1+1 seconds,
black 50+49+96; every ply was accepted by make_move when submitted). -/
def cgBug : ChessGame :=
  { headers :=
      { event := "e", site := "s", date := 0, round := 1, white := "w",
        black := "b", result := "1-0", time := 0,
        termination := "time forefit", mode := "ICS" }
    plies := [{ san := "a3", clock := some 199 }, { san := "a6", clock := some 149 },
              { san := "a4", clock := some 148 }, { san := "h6", clock := some 99 },
              { san := "h3", clock := some 98 }, { san := "h5", clock := some 2 }]
    outcome := none
    rootTurnWhite := true
    turnWhite := true }

/-- Failing input for C1: the already-Concluded match row holding cgBug,
stamped time_ended = 199 and white_won = true by the earlier invocation. -/
def gBug : Game :=
  { game_id := 3
    game := some cgBug
    time_started := some 0
    time_ended := some 199
    white_won := some true
    timer := TimerKind.countdown
    timeLimit := some 100
    players :=
      [{ game_id := 3, is_white := true, user_id := some 1, session_id := none },
       { game_id := 3, is_white := false, user_id := some 2, session_id := none }] }

/-- The participants of gBug after the first hospice invocation applied its
+1 / -1 delta. -/
def usersBug : List User :=
  [{ user_id := 1, username := "w", password := "p", score := 401 },
   { user_id := 2, username := "b", password := "p", score := 399 }]

/-- C1 (code bug): re-invoking hospice on this already-Concluded match is
not idempotent. Because hospice never consults time_ended, and charges the
in-flight gap to white via the root-node turn, a read at time 300 re-stamps
time_ended, flips the winner flag from white to black, and re-applies the
rating delta in the opposite direction. -/
theorem hospice_rerun_mutates_concluded :
    gBug.time_ended = some 199 ∧ gBug.white_won = some true ∧
    usersBug.map User.score = [401, 399] ∧
    ∃ g2 us2, hospice gBug usersBug none false 300 = Except.ok (g2, us2) ∧
      g2.time_ended = some 300 ∧ g2.white_won = some false ∧
      us2.map User.score = [400, 400] := by
  exact ⟨rfl, rfl, rfl, _, _, rfl, rfl, rfl, rfl⟩

/-- C7: an undecodable stored record, or a Countdown match with a null
timeLimit or a missing per-ply clock, aborts the operation as a server
fault - a constructor distinct from every user-input rejection - and the
match, player and user state are returned unchanged (the explicit 500s fire
before any mutation, and the hospice faults are exceptions that roll the
transaction back); this covers both the move path and the hospice closure
invoked from reads. -/
theorem faults_abort_without_partial_writes (g : Game) (users : List User)
    (session : Option Session) (user : Option User) (san : String)
    (parseOk : Bool) (newOutcome : Option Outcome) (now st : Int)
    (hst : g.time_started = some st) :
    (∀ piw, g.time_ended = none →
      get_player_team g.players session user = some piw → g.game = none →
      make_move (some g) users session user san parseOk newOutcome now =
        (.faultDecode, some g, users)) ∧
    (∀ cg piw, g.time_ended = none →
      get_player_team g.players session user = some piw → g.game = some cg →
      piw = cg.turnWhite → parseOk = true → g.timer = TimerKind.countdown →
      g.timeLimit = none →
      make_move (some g) users session user san parseOk newOutcome now =
        (.faultMissingTimeLimit, some g, users)) ∧
    (∀ cg piw limit, g.time_ended = none →
      get_player_team g.players session user = some piw → g.game = some cg →
      piw = cg.turnWhite → parseOk = true → g.timer = TimerKind.countdown →
      g.timeLimit = some limit → clockOffsets cg limit = none →
      make_move (some g) users session user san parseOk newOutcome now =
        (.faultMissingClock, some g, users)) ∧
    (g.game = none → ∀ forceSave,
      hospice g users none forceSave now = Except.error Fault.decodeFailure) ∧
    (∀ cg, g.game = some cg → cg.outcome = none →
      g.timer = TimerKind.countdown → g.timeLimit = none → ∀ forceSave,
      hospice g users none forceSave now = Except.error Fault.missingTimeLimit) ∧
    (∀ cg limit, g.game = some cg → cg.outcome = none →
      g.timer = TimerKind.countdown → g.timeLimit = some limit →
      clockOffsets cg limit = none → ∀ forceSave,
      hospice g users none forceSave now = Except.error Fault.missingClock) := by
  refine ⟨?_, ?_, ?_, ?_, ?_, ?_⟩
  · intro piw hte hteam hgame
    simp [make_move, hst, hte, hteam, hgame]
  · intro cg piw hte hteam hgame hturn hparse htimer hlim
    simp [make_move, hst, hte, hteam, hgame, hturn, hparse, htimer, hlim]
  · intro cg piw limit hte hteam hgame hturn hparse htimer hlim hoffs
    simp [make_move, hst, hte, hteam, hgame, hturn, hparse, htimer, hlim,
      reconcile, hoffs]
  · intro hgame forceSave
    unfold hospice
    rw [hst]
    simp [hgame]
  · intro cg hgame hout htimer hlim forceSave
    unfold hospice
    rw [hst]
    simp [hgame, hospiceStep, hout, htimer, hlim]
  · intro cg limit hgame hout htimer hlim hoffs forceSave
    unfold hospice
    rw [hst]
    simp [hgame, hospiceStep, hout, htimer, hlim, reconcile, hoffs]

/-- Shared header fixture for witnesses. -/
def hdr0 : PgnHeaders :=
  { event := "e", site := "s", date := 0, round := 1, white := "w",
    black := "b", result := "*", time := 0,
    termination := "unterminated", mode := "ICS" }

/-- Witness fixture for C7: a started match whose stored record fails to
decode, with a session-bound white seat. -/
def gNoRecord : Game :=
  { game_id := 4, game := none, time_started := some 0, time_ended := none,
    white_won := none, timer := TimerKind.countdown, timeLimit := some 10,
    players := [{ game_id := 4, is_white := true, user_id := none, session_id := some 5 }] }

/-- Witness fixture for C7: a Countdown match with a decodable record but a
null timeLimit. -/
def gNoLimit : Game :=
  { game_id := 4
    game := some
      { headers := hdr0, plies := [], outcome := none,
        rootTurnWhite := true, turnWhite := true }
    time_started := some 0, time_ended := none, white_won := none,
    timer := TimerKind.countdown, timeLimit := none,
    players := [{ game_id := 4, is_white := true, user_id := none, session_id := some 5 }] }

/-- Witness fixture for C7: a Countdown match whose single stored ply has no
clock annotation. -/
def gNoClock : Game :=
  { game_id := 4
    game := some
      { headers := hdr0, plies := [{ san := "e4", clock := none }], outcome := none,
        rootTurnWhite := true, turnWhite := false }
    time_started := some 0, time_ended := none, white_won := none,
    timer := TimerKind.countdown, timeLimit := some 10,
    players := [{ game_id := 4, is_white := false, user_id := none, session_id := some 5 }] }

/-- Witness for C7: all six fault shapes at concrete inputs. -/
theorem faults_abort_without_partial_writes_witness :
    (make_move (some gNoRecord) [] (some { session_id := 5, token := "t", user_id := none })
        none "e4" true none 3 = (.faultDecode, some gNoRecord, [])) ∧
    (make_move (some gNoLimit) [] (some { session_id := 5, token := "t", user_id := none })
        none "e4" true none 3 = (.faultMissingTimeLimit, some gNoLimit, [])) ∧
    (make_move (some gNoClock) [] (some { session_id := 5, token := "t", user_id := none })
        none "e4" true none 3 = (.faultMissingClock, some gNoClock, [])) ∧
    (hospice gNoRecord [] none false 3 = Except.error Fault.decodeFailure) ∧
    (hospice gNoLimit [] none false 3 = Except.error Fault.missingTimeLimit) ∧
    (hospice gNoClock [] none false 3 = Except.error Fault.missingClock) :=
  ⟨(faults_abort_without_partial_writes gNoRecord []
      (some { session_id := 5, token := "t", user_id := none }) none "e4" true none 3 0
      rfl).1 true rfl (by decide) rfl,
   (faults_abort_without_partial_writes gNoLimit []
      (some { session_id := 5, token := "t", user_id := none }) none "e4" true none 3 0
      rfl).2.1 _ true rfl (by decide) rfl rfl rfl rfl rfl,
   (faults_abort_without_partial_writes gNoClock []
      (some { session_id := 5, token := "t", user_id := none }) none "e4" true none 3 0
      rfl).2.2.1 _ false 10 rfl (by decide) rfl rfl rfl rfl rfl (by decide),
   (faults_abort_without_partial_writes gNoRecord []
      (some { session_id := 5, token := "t", user_id := none }) none "e4" true none 3 0
      rfl).2.2.2.1 rfl false,
   (faults_abort_without_partial_writes gNoLimit []
      (some { session_id := 5, token := "t", user_id := none }) none "e4" true none 3 0
      rfl).2.2.2.2.1 _ rfl rfl rfl rfl false,
   (faults_abort_without_partial_writes gNoClock []
      (some { session_id := 5, token := "t", user_id := none }) none "e4" true none 3 0
      rfl).2.2.2.2.2 _ 10 rfl rfl rfl rfl (by decide) false⟩

/-- C5: the entry protocol fails with NotFound on a missing match, with
AlreadyJoined when the identity (by Session- or User-equality) already holds
a seat, with Full when two seats are occupied, and when the requested
colour's seat is taken an explicit request fails with ColorUnavailable while
a caller with no expressed preference is silently flipped to the other
colour. -/
theorem enter_game_failure_modes (g : Game) (paramsWW : Option Bool)
    (randomBit : Bool) (session : Session) (user : Option User)
    (users : List User) (now : Int) :
    (enter_game none paramsWW randomBit session user users now = (.notFound, none)) ∧
    ((get_player_team g.players (some session) user).isSome →
      enter_game (some g) paramsWW randomBit session user users now =
        (.alreadyJoined, some g)) ∧
    (get_player_team g.players (some session) user = none →
      g.players.length ≥ 2 →
      enter_game (some g) paramsWW randomBit session user users now =
        (.full, some g)) ∧
    (∀ c, get_player_team g.players (some session) user = none →
      g.players.length < 2 → g.players.any (fun p => p.is_white == c) →
      enter_game (some g) (some c) randomBit session user users now =
        (.colorUnavailable, some g)) ∧
    (get_player_team g.players (some session) user = none →
      g.players.length < 2 → g.players.any (fun p => p.is_white == randomBit) →
      (enter_game (some g) none randomBit session user users now).1 = .entered ∧
      Option.map (fun g2 => g2.players.map Player.is_white)
          (enter_game (some g) none randomBit session user users now).2 =
        some (g.players.map Player.is_white ++ [!randomBit])) := by
  refine ⟨rfl, ?_, ?_, ?_, ?_⟩
  · intro h
    simp [enter_game, h]
  · intro h1 h2
    simp [enter_game, h1, h2]
  · intro c h1 h2 h3
    simp [enter_game, h1, Nat.not_le.mpr h2, h3]
  · intro h1 h2 h3
    obtain ⟨p0, hps, hcol⟩ : ∃ p0, g.players = [p0] ∧ p0.is_white = randomBit := by
      cases hps : g.players with
      | nil => rw [hps] at h3; simp at h3
      | cons p0 tl =>
        cases tl with
        | nil =>
          rw [hps] at h3
          simp at h3
          exact ⟨p0, rfl, h3⟩
        | cons p1 tl2 =>
          rw [hps] at h2
          simp only [List.length_cons] at h2
          omega
    rw [hps] at h1
    cases randomBit <;>
      exact ⟨by simp [enter_game, joinSeat, hps, h1, hcol, findSeatLoop],
             by simp [enter_game, joinSeat, hps, h1, hcol, findSeatLoop]⟩

/-- Witness for C5: all five behaviours at concrete inputs; the match has a
session-bound white seat, the joiner is a fresh anonymous session. -/
theorem enter_game_failure_modes_witness :
    (enter_game none none false { session_id := 9, token := "t", user_id := none }
      none [] 7 = (.notFound, none)) ∧
    (enter_game
      (some { game_id := 4, game := none, time_started := none, time_ended := none,
              white_won := none, timer := TimerKind.countup, timeLimit := none,
              players := [{ game_id := 4, is_white := true, user_id := none,
                            session_id := some 5 }] })
      (some true) false { session_id := 5, token := "t", user_id := none } none [] 7 =
      (.alreadyJoined,
       some { game_id := 4, game := none, time_started := none, time_ended := none,
              white_won := none, timer := TimerKind.countup, timeLimit := none,
              players := [{ game_id := 4, is_white := true, user_id := none,
                            session_id := some 5 }] })) ∧
    (enter_game
      (some { game_id := 4, game := none, time_started := none, time_ended := none,
              white_won := none, timer := TimerKind.countup, timeLimit := none,
              players := [{ game_id := 4, is_white := true, user_id := none,
                            session_id := some 5 },
                          { game_id := 4, is_white := false, user_id := none,
                            session_id := some 6 }] })
      (some true) false { session_id := 9, token := "t", user_id := none } none [] 7 =
      (.full,
       some { game_id := 4, game := none, time_started := none, time_ended := none,
              white_won := none, timer := TimerKind.countup, timeLimit := none,
              players := [{ game_id := 4, is_white := true, user_id := none,
                            session_id := some 5 },
                          { game_id := 4, is_white := false, user_id := none,
                            session_id := some 6 }] })) ∧
    (enter_game
      (some { game_id := 4, game := none, time_started := none, time_ended := none,
              white_won := none, timer := TimerKind.countup, timeLimit := none,
              players := [{ game_id := 4, is_white := true, user_id := none,
                            session_id := some 5 }] })
      (some true) false { session_id := 9, token := "t", user_id := none } none [] 7 =
      (.colorUnavailable,
       some { game_id := 4, game := none, time_started := none, time_ended := none,
              white_won := none, timer := TimerKind.countup, timeLimit := none,
              players := [{ game_id := 4, is_white := true, user_id := none,
                            session_id := some 5 }] })) ∧
    ((enter_game
      (some { game_id := 4, game := none, time_started := none, time_ended := none,
              white_won := none, timer := TimerKind.countup, timeLimit := none,
              players := [{ game_id := 4, is_white := true, user_id := none,
                            session_id := some 5 }] })
      none true { session_id := 9, token := "t", user_id := none } none [] 7).1 =
        .entered ∧
      Option.map (fun g2 => g2.players.map Player.is_white)
        (enter_game
          (some { game_id := 4, game := none, time_started := none, time_ended := none,
                  white_won := none, timer := TimerKind.countup, timeLimit := none,
                  players := [{ game_id := 4, is_white := true, user_id := none,
                                session_id := some 5 }] })
          none true { session_id := 9, token := "t", user_id := none } none [] 7).2 =
        some [true, false]) :=
  ⟨(enter_game_failure_modes
      { game_id := 4, game := none, time_started := none, time_ended := none,
        white_won := none, timer := TimerKind.countup, timeLimit := none,
        players := [] }
      none false { session_id := 9, token := "t", user_id := none } none [] 7).1,
   (enter_game_failure_modes _ (some true) false
      { session_id := 5, token := "t", user_id := none } none [] 7).2.1 (by decide),
   (enter_game_failure_modes _ (some true) false
      { session_id := 9, token := "t", user_id := none } none [] 7).2.2.1
      (by decide) (by decide),
   (enter_game_failure_modes _ (some true) false
      { session_id := 9, token := "t", user_id := none } none [] 7).2.2.2.1 true
      (by decide) (by decide) (by decide),
   (enter_game_failure_modes _ none true
      { session_id := 9, token := "t", user_id := none } none [] 7).2.2.2.2
      (by decide) (by decide) (by decide)⟩

/-- C6: a successful entry adds exactly one seat; when it fills the second
seat (pre-count 1) it stamps time_started and writes the PGN header block
exactly once (event name, site, date and time of start taken from the stamp,
display names from each seat's bound User or Anonymous, result *,
termination unterminated); when it fills the first seat (pre-count 0)
neither time_started nor the record is touched; entry never succeeds on a
match that already has two seats; and a freshly created match has exactly
one seat and no start stamp. -/
theorem enter_game_start_transition (g : Game) (paramsWW : Option Bool)
    (randomBit : Bool) (session : Session) (user : Option User)
    (users : List User) (now : Int) (g2 : Game)
    (h : enter_game (some g) paramsWW randomBit session user users now =
      (.entered, some g2)) :
    g2.players.length = g.players.length + 1 ∧
    (g.players.length = 1 →
      ∃ pw pb, findSeatLoop g2.players = (some pw, some pb) ∧
        g2.time_started = some now ∧
        g2.game = some
          { headers :=
              { event := "Checkmate Chess Game"
                site := "chessapp.ultras-playroom.xyz"
                date := now
                round := 1
                white := displayName users pw
                black := displayName users pb
                result := "*"
                time := now
                termination := "unterminated"
                mode := "ICS" }
            plies := []
            outcome := none
            rootTurnWhite := true
            turnWhite := true }) ∧
    (g.players.length = 0 →
      g2.time_started = g.time_started ∧ g2.game = g.game) ∧
    ¬ g.players.length ≥ 2 ∧
    (∀ csw tl tk u sess gid,
      (create_game csw tl tk u sess gid).players.length = 1 ∧
      (create_game csw tl tk u sess gid).time_started = none) := by
  simp only [enter_game] at h
  split at h
  case isTrue => exact absurd h (by simp)
  case isFalse hjoined =>
  split at h
  case isTrue => exact absurd h (by simp)
  case isFalse hnotfull =>
  split at h
  case h_1 => exact absurd h (by simp)
  case h_2 color hcolor =>
  split at h
  case isTrue hlen2 =>
    split at h
    case h_1 pw pb hseats =>
      injection h with h1 h2
      injection h2 with h2
      subst h2
      refine ⟨by simp, ?_, ?_, hnotfull, fun _ _ _ _ _ _ => ⟨rfl, rfl⟩⟩
      · intro _
        exact ⟨pw, pb, hseats, rfl, rfl⟩
      · intro hzero
        rw [List.length_append, hzero] at hlen2
        simp at hlen2
    case h_2 => exact absurd h (by simp)
  case isFalse hlen2 =>
    injection h with h1 h2
    injection h2 with h2
    subst h2
    refine ⟨by simp, ?_, fun _ => ⟨rfl, rfl⟩, hnotfull,
      fun _ _ _ _ _ _ => ⟨rfl, rfl⟩⟩
    intro hone
    exfalso
    apply hlen2
    rw [List.length_append, hone]
    rfl

/-- Witness fixture for C6: an open match with only a user-bound white
seat. -/
def gJoinBefore : Game :=
  { game_id := 4, game := none, time_started := none, time_ended := none,
    white_won := none, timer := TimerKind.countup, timeLimit := none,
    players := [{ game_id := 4, is_white := true, user_id := some 7,
                  session_id := none }] }

/-- Witness fixture for C6: the registered user list resolving seat 7. -/
def usersJoin : List User :=
  [{ user_id := 7, username := "ada", password := "p", score := 400 }]

/-- Witness fixture for C6: the started match produced when an anonymous
session (id 9) fills the black seat of gJoinBefore at time 11. -/
def gJoinAfter : Game :=
  { game_id := 4
    game := some
      { headers :=
          { event := "Checkmate Chess Game"
            site := "chessapp.ultras-playroom.xyz"
            date := 11
            round := 1
            white := "ada"
            black := "Anonymous"
            result := "*"
            time := 11
            termination := "unterminated"
            mode := "ICS" }
        plies := []
        outcome := none
        rootTurnWhite := true
        turnWhite := true }
    time_started := some 11
    time_ended := none
    white_won := none
    timer := TimerKind.countup
    timeLimit := none
    players := [{ game_id := 4, is_white := true, user_id := some 7,
                  session_id := none },
                { game_id := 4, is_white := false, user_id := none,
                  session_id := some 9 }] }

/-- Witness for C6: an anonymous session fills the black seat of a match
whose white seat is user-bound; the match starts with the header block
written. -/
theorem enter_game_start_transition_witness :
    ∃ pw pb, findSeatLoop gJoinAfter.players = (some pw, some pb) ∧
      gJoinAfter.time_started = some 11 ∧
      gJoinAfter.game = some
        { headers :=
            { event := "Checkmate Chess Game"
              site := "chessapp.ultras-playroom.xyz"
              date := 11
              round := 1
              white := displayName usersJoin pw
              black := displayName usersJoin pb
              result := "*"
              time := 11
              termination := "unterminated"
              mode := "ICS" }
          plies := []
          outcome := none
          rootTurnWhite := true
          turnWhite := true } :=
  (enter_game_start_transition gJoinBefore (some false) false
    { session_id := 9, token := "t", user_id := none } none usersJoin 11
    gJoinAfter (by decide)).2.1 rfl

/-- The thinking-time loop computes, on top of its accumulators, the
alternating per-side sums of the consecutive differences of the stored
offsets seeded with the time limit - the per-ply thinking durations. -/
theorem accumTimes_eq_altSums : ∀ (offs : List Int) (last : Int)
    (isWhiteFirst : Bool) (w b : Int),
    accumTimes offs last isWhiteFirst w b =
      (w + (altSums isWhiteFirst (offsetGaps last offs)).1,
       b + (altSums isWhiteFirst (offsetGaps last offs)).2) := by
  intro offs
  induction offs with
  | nil =>
    intro last isW w b
    simp [accumTimes, offsetGaps, altSums]
  | cons t ts ih =>
    intro last isW w b
    cases isW
    · rw [show accumTimes (t :: ts) last false w b =
          accumTimes ts t true w (b + (last - t)) from rfl, ih]
      simp [offsetGaps, altSums, Prod.ext_iff]
      ring
    · rw [show accumTimes (t :: ts) last true w b =
          accumTimes ts t false (w + (last - t)) b from rfl, ih]
      simp [offsetGaps, altSums, Prod.ext_iff]
      ring

/-- A forced save in the hospice tail stores the stepped record. -/
theorem hospiceTail_ok_game (old : Option Bool) (ps : List Player)
    (us : List User) (cg2 : ChessGame) (gg : Game) (g2 : Game)
    (us2 : List User)
    (h : hospiceTail old ps us true cg2 gg = Except.ok (g2, us2)) :
    g2.game = some cg2 := by
  unfold hospiceTail at h
  by_cases hww : gg.white_won = old
  · rw [if_neg (fun hne => hne hww)] at h
    injection h with h1
    injection h1 with hga hus
    subst hga
    rfl
  · rw [if_pos hww] at h
    unfold applyRatings at h
    rcases hfs : findSeatLoop ps with ⟨w?, b?⟩
    rw [hfs] at h
    rcases w? with _ | pw
    · exact absurd h (by simp)
    rcases b? with _ | pb
    · exact absurd h (by simp)
    injection h with h1
    injection h1 with hga hus
    subst hga
    rfl

/-- The hospice step never touches the mainline: the stepped record carries
exactly the plies of the record it was given. -/
theorem hospiceStep_ok_plies (g : Game) (cg : ChessGame) (now started : Int)
    (p : ChessGame × Game) (h : hospiceStep g cg now started = Except.ok p) :
    p.1.plies = cg.plies := by
  unfold hospiceStep at h
  split at h
  · injection h with h1
    subst h1
    rfl
  · split at h
    · split at h
      · exact absurd h (by simp)
      · split at h
        · exact absurd h (by simp)
        · split at h
          · injection h with h1
            subst h1
            rfl
          · split at h
            · injection h with h1
              subst h1
              rfl
            · injection h with h1
              subst h1
              rfl
    · injection h with h1
      subst h1
      rfl

/-- A hospice invocation given a fresh record and force_save stores a record
with exactly that record's plies. -/
theorem hospice_forced_plies (g : Game) (us : List User) (cgX : ChessGame)
    (now st : Int) (g2 : Game) (us2 : List User)
    (hst : g.time_started = some st)
    (h : hospice g us (some cgX) true now = Except.ok (g2, us2)) :
    ∃ cg2, g2.game = some cg2 ∧ cg2.plies = cgX.plies := by
  unfold hospice at h
  simp only [hst] at h
  split at h
  · exact absurd h (by simp)
  · rename_i p hstep
    exact ⟨p.1, hospiceTail_ok_game _ _ _ _ _ _ _ h,
      hospiceStep_ok_plies _ _ _ _ _ hstep⟩

/-- C4 (amended): for every accepted move in a Countdown match, the per-ply
clock annotation written into the record equals timeLimit * 2 minus the
seconds elapsed since the match started - the two sides' combined remaining
time, not the mover's remaining time minus the limit - and the
reconciliation arithmetic, reading back node clock minus timeLimit, recovers
each side's thinking time as the alternating sums of consecutive differences
of those offsets seeded with the time limit. -/
theorem make_move_clock_convention (g : Game) (users : List User)
    (session : Option Session) (user : Option User) (san : String)
    (parseOk : Bool) (newOutcome : Option Outcome) (now st limit : Int)
    (g2 : Game) (us2 : List User)
    (hst : g.time_started = some st) (htimer : g.timer = TimerKind.countdown)
    (hlim : g.timeLimit = some limit)
    (h : make_move (some g) users session user san parseOk newOutcome now =
      (.moved, some g2, us2)) :
    (∃ cg2, g2.game = some cg2 ∧
      cg2.plies.getLast? =
        some { san := san, clock := some (limit * 2 - (now - st)) }) ∧
    (∀ (offs : List Int) (last : Int) (isWhiteFirst : Bool) (w b : Int),
      accumTimes offs last isWhiteFirst w b =
        (w + (altSums isWhiteFirst (offsetGaps last offs)).1,
         b + (altSums isWhiteFirst (offsetGaps last offs)).2)) := by
  refine ⟨?_, accumTimes_eq_altSums⟩
  simp only [make_move, hst, htimer, hlim, eq_self_iff_true, if_true] at h
  split at h
  · exact absurd h (by simp)
  rename_i hte
  split at h
  · exact absurd h (by simp)
  rename_i piw hteam
  split at h
  · exact absurd h (by simp)
  rename_i cg hcg
  split at h
  · exact absurd h (by simp)
  rename_i hturn
  split at h
  · exact absurd h (by simp)
  rename_i hparse
  split at h
  · exact absurd h (by simp)
  rename_i r hrec
  split at h
  · split at h <;> exact absurd h (by simp)
  rename_i hw
  split at h
  · split at h <;> exact absurd h (by simp)
  rename_i hb2
  split at h
  · exact absurd h (by simp)
  rename_i gu hhos
  injection h with h1 h2
  injection h2 with h2a h2b
  injection h2a with h2a
  obtain ⟨cg2, hg2, hplies⟩ :=
    hospice_forced_plies g users _ now st gu.1 gu.2 hst hhos
  refine ⟨cg2, ?_, ?_⟩
  · rw [← h2a]
    exact hg2
  · rw [hplies]
    simp [appendPly]

/-- Fixture for C4: a Countdown record (timeLimit 600) holding one white ply
made after 30 seconds (clock annotation 2 * 600 - 30 = 1170); black to
move. -/
def cgC4 : ChessGame :=
  { headers := hdr0
    plies := [{ san := "e4", clock := some 1170 }]
    outcome := none
    rootTurnWhite := true
    turnWhite := false }

/-- Fixture for C4: the anonymous session holding the black seat. -/
def sess5 : Session := { session_id := 5, token := "t", user_id := none }

/-- Fixture for C4: the Countdown match holding cgC4. -/
def gC4 : Game :=
  { game_id := 7
    game := some cgC4
    time_started := some 0
    time_ended := none
    white_won := none
    timer := TimerKind.countdown
    timeLimit := some 600
    players :=
      [{ game_id := 7, is_white := true, user_id := some 1, session_id := none },
       { game_id := 7, is_white := false, user_id := none, session_id := some 5 }] }

/-- Fixture for C4: the match after black's accepted move at 80 seconds; the
new ply carries clock 2 * 600 - 80 = 1120. -/
def gC4after : Game :=
  { gC4 with
    game := some
      { headers := hdr0
        plies := [{ san := "e4", clock := some 1170 },
                  { san := "Nf6", clock := some 1120 }]
        outcome := none
        rootTurnWhite := true
        turnWhite := true } }

/-- Counterexample for C4 as stated: black's accepted move at 80 seconds
(black thought 50 seconds, so black's cumulative remaining time is 550)
stores the clock annotation 1120; the spec's claimed quantity - mover's
remaining minus the limit - is -50, which matches neither the stored
annotation nor its read-back 1120 - 600 = 520. -/
theorem make_move_clock_not_mover_offset :
    ((make_move (some gC4) [] (some sess5) none "Nf6" true none 80).1 =
      .moved) ∧
    (((make_move (some gC4) [] (some sess5) none "Nf6" true none 80).2.1.bind
        Game.game).map (fun cg2 => cg2.plies.map Ply.clock) =
      some [some 1170, some 1120]) ∧
    accumTimes [1170 - 600, 1120 - 600] 600 true 0 0 = (30, 50) ∧
    specMoverOffset (600 - 50) 600 = -50 ∧
    ((1120 : Int) ≠ -50) ∧ ((1120 - 600 : Int) ≠ 600 - 50) := by
  exact ⟨by decide, by decide, by decide, by decide, by decide, by decide⟩

/-- Witness for C4 at the gC4 fixture: the accepted move writes clock
600 * 2 - (80 - 0) = 1120 as the last ply annotation. -/
theorem make_move_clock_convention_witness :
    (∃ cg2, gC4after.game = some cg2 ∧
      cg2.plies.getLast? =
        some { san := "Nf6", clock := some (600 * 2 - (80 - 0)) }) ∧
    (∀ (offs : List Int) (last : Int) (isWhiteFirst : Bool) (w b : Int),
      accumTimes offs last isWhiteFirst w b =
        (w + (altSums isWhiteFirst (offsetGaps last offs)).1,
         b + (altSums isWhiteFirst (offsetGaps last offs)).2)) :=
  make_move_clock_convention gC4 [] (some sess5) none "Nf6" true none 80 0 600
    gC4after [] rfl rfl rfl (by decide)

end ChessApp
